import Mathlib

/-!
Shallow embedding of the proactive-jobs bot (`src/bot.js`) and proofs of the
specification's claims about it.

The bot keeps a registry of jobs (a JS object keyed by stringified numeric
ids), a per-user profile, and a per-conversation dialog stack.  Inbound
message turns are classified into commands (`run`, `show`, `done <id>`), a
`jobCompleted` system event mirrors `done`, and completing a job proactively
resumes the creator's conversation and begins one of two dialogs.

Modelling conventions:
* JS objects used as string-keyed maps become association lists in insertion
  order; property lookup/assignment become `lookupJob` / `setJob`.
* The wall clock (`new Date().getMilliseconds()`) becomes an explicit `nowMs`
  parameter; `getMilliseconds` is `nowMs % 1000`.
* The adapter's `continueConversation` either runs its callback (resumeOk =
  true) or throws (resumeOk = false); an uncaught JS exception is modelled by
  `Except.error`.
* Messages sent with `turnContext.sendActivity` become `Output.reply`;
  messages sent on the proactive (resumed) turn become `Output.proactive`.
* JS string operations (`trim`, `toLowerCase`, `split`, `parseInt` NaN-ness,
  template rendering of `undefined`) are modelled by structurally recursive
  functions `jsTrim`, `jsToLower`, `jsSplitCh`, `jsParseIntOk`, `jsStr`.
-/

/-- JS whitespace characters (the ASCII part of StrWhiteSpace, which is all
`trim`/`parseInt` can meet here since inputs are ASCII). -/
def isJsSpace (c : Char) : Bool :=
  c = ' ' || c = '\t' || c = '\n' || c = '\r' || c = '\x0b' || c = '\x0c'

/-- JS `String.prototype.trim`: drop leading and trailing whitespace. -/
def jsTrim (s : String) : String :=
  String.mk (((s.toList.dropWhile isJsSpace).reverse.dropWhile isJsSpace).reverse)

/-- JS `String.prototype.toLowerCase` (ASCII). -/
def jsToLower (s : String) : String :=
  String.mk (s.toList.map Char.toLower)

/-- Worker for `jsSplitCh`. -/
def splitChAux (sep : Char) : List Char → List Char → List String
  | [], acc => [String.mk acc.reverse]
  | c :: rest, acc =>
    if c = sep then String.mk acc.reverse :: splitChAux sep rest []
    else splitChAux sep rest (c :: acc)

/-- JS `String.prototype.split` with a single-character separator:
`"".split(c) = [""]`, empty fields are kept. -/
def jsSplitCh (sep : Char) (s : String) : List String :=
  splitChAux sep s.toList []

/-- A hexadecimal digit as accepted by JS `parseInt` with radix 16. -/
def isHexDigitJs (c : Char) : Bool :=
  c.isDigit || ('a' ≤ c && c ≤ 'f') || ('A' ≤ c && c ≤ 'F')

/-- Whether JS `parseInt(s)` (radix argument omitted) is not NaN: after
optional leading whitespace and an optional sign, a `0x`/`0X` prefix switches
to radix 16 and then at least one hexadecimal digit must follow (so `"0x"`
and `"0xg"` are NaN); without that prefix at least one decimal digit must
lead.  (The parsed value is never used by the bot, only its NaN-ness;
`parseInt(undefined)` is NaN, which callers model by passing `""`.) -/
def jsParseIntOk (s : String) : Bool :=
  let cs := s.toList.dropWhile isJsSpace
  let cs2 :=
    match cs with
    | '+' :: r => r
    | '-' :: r => r
    | r => r
  match cs2 with
  | '0' :: 'x' :: r =>
    match r with
    | c :: _ => isHexDigitJs c
    | [] => false
  | '0' :: 'X' :: r =>
    match r with
    | c :: _ => isHexDigitJs c
    | [] => false
  | c :: _ => c.isDigit
  | [] => false

/-- JS template rendering of a possibly-undefined string value:
`${undefined}` prints "undefined". -/
def jsStr : Option String → String
  | none => "undefined"
  | some s => s

/-- JS rendering of a boolean in a template string. -/
def jsBool (b : Bool) : String := if b then "true" else "false"

/-- JS `Array.prototype.join`. -/
def jsJoin (sep : String) : List String → String
  | [] => ""
  | [x] => x
  | x :: xs => x ++ sep ++ jsJoin sep xs

/-- A stored ConversationReference; `convId` is `reference.conversation.id`.
Opaque to the bot except for the fragment shown by `show`. -/
structure ConvRef where
  convId : String
deriving DecidableEq

/-- One record of the job registry: `{ completed: ..., reference: ... }`.
`reference` is an `Option` because the source guards on its truthiness
(`if (reference && !completed)`), although every record the code creates
carries one. -/
structure JobRecord where
  completed : Bool
  reference : Option ConvRef
deriving DecidableEq

/-- The per-user profile written by the dialogs (`user.name`, `user.city`);
absent JS properties are `none`. -/
structure UserProfile where
  name : Option String
  city : Option String
deriving DecidableEq

/-- JS truthiness of `user.city`: absent or empty string is falsy. -/
def cityTruthy (p : UserProfile) : Bool :=
  match p.city with
  | none => false
  | some s => s ≠ ""

/-- Dialog ids and prompt ids from the source. -/
def WHO_ARE_YOU : String := "who_are_you"

def HELLO_USER : String := "hello_user"

def NAME_PROMPT : String := "name_prompt"

def CITY_PROMPT : String := "city_prompt"

def namePromptText : String := "What is your name?"

def cityPromptText : String := "What city are you from?"

/-- One frame of the per-conversation dialog stack: a suspended waterfall
(dialog id and current step index) or a pending text prompt (prompt id and the
text it was invoked with, re-sent on re-prompt). -/
inductive Frame where
  | waterfall (dialogId : String) (stepIndex : Nat)
  | prompt (promptId : String) (promptMsg : String)
deriving DecidableEq

/-- Result of driving the dialog engine: new stack, new profile, and the texts
sent on the turn being processed. -/
structure DlgRes where
  stack : List Frame
  profile : UserProfile
  out : List String
deriving DecidableEq

/-- Run waterfall step `idx` of dialog `did` with the incoming `result`
(`step.result`), above the remaining stack `rest`.  Encodes the four step
methods of the source: `promptForName`, `promptForCity`, `captureCity`
(WHO_ARE_YOU) and `displayProfile` (HELLO_USER).  Ending a dialog pops it and
resumes the parent frame (a parent waterfall runs its next step, a parent
prompt re-prompts).  `fuel` bounds that unwinding; every caller supplies more
fuel than the stack can consume. -/
def runStep : Nat → String → Nat → Option String → List Frame → UserProfile → DlgRes
  | 0, _, _, _, stack, p => ⟨stack, p, []⟩
  | fuel + 1, did, idx, result, rest, p =>
    if did = WHO_ARE_YOU then
      if idx = 0 then
        -- promptForName: prompt NAME_PROMPT and suspend
        ⟨Frame.prompt NAME_PROMPT namePromptText :: Frame.waterfall did 0 :: rest, p,
          [namePromptText]⟩
      else if idx = 1 then
        -- promptForCity: store the name, prompt CITY_PROMPT and suspend
        ⟨Frame.prompt CITY_PROMPT cityPromptText :: Frame.waterfall did 1 :: rest,
          { p with name := result }, [cityPromptText]⟩
      else
        -- captureCity (idx = 2): store the city and end; past-the-end also ends
        let p2 := if idx = 2 then { p with city := result } else p
        match rest with
        | [] => ⟨[], p2, []⟩
        | Frame.prompt pid msg :: r2 => ⟨Frame.prompt pid msg :: r2, p2, [msg]⟩
        | Frame.waterfall d2 i2 :: r2 => runStep fuel d2 (i2 + 1) none r2 p2
    else if did = HELLO_USER then
      -- displayProfile (idx = 0): greet from the profile, then end
      let gs :=
        if idx = 0 then ["Hello, " ++ jsStr p.name ++ " from " ++ jsStr p.city] else []
      match rest with
      | [] => ⟨[], p, gs⟩
      | Frame.prompt pid msg :: r2 => ⟨Frame.prompt pid msg :: r2, p, gs ++ [msg]⟩
      | Frame.waterfall d2 i2 :: r2 =>
        let r := runStep fuel d2 (i2 + 1) none r2 p
        ⟨r.stack, r.profile, gs ++ r.out⟩
    else ⟨rest, p, []⟩

/-- `dc.beginDialog(did)`: push the named waterfall and run its first step. -/
def beginDialogTop (did : String) (stack : List Frame) (p : UserProfile) : DlgRes :=
  runStep (2 * stack.length + 8) did 0 none stack p

/-- `dc.continueDialog()` fed the raw inbound text.  No active dialog is a
no-op; a pending TextPrompt accepts any non-empty text as its value and
resumes the suspended waterfall, re-prompting on empty text. -/
def continueDialogTopF (stack : List Frame) (p : UserProfile) (text : String) : DlgRes :=
  match stack with
  | [] => ⟨[], p, []⟩
  | Frame.prompt pid msg :: rest =>
    if text = "" then ⟨Frame.prompt pid msg :: rest, p, [msg]⟩
    else
      match rest with
      | Frame.waterfall did idx :: rest2 =>
        runStep (2 * rest2.length + 8) did (idx + 1) (some text) rest2 p
      | _ => ⟨rest, p, []⟩
  | Frame.waterfall did idx :: rest =>
    runStep (2 * rest.length + 8) did (idx + 1) (some text) rest p

/-- Whole bot state: the `jobs` registry (bot scope), the user profile (user
scope) and the dialog stack (conversation scope). -/
structure BotState where
  jobs : List (String × JobRecord)
  profile : UserProfile
  dialog : List Frame
deriving DecidableEq

/-- JS property read `jobs[k]`: first (only) binding of the key. -/
def lookupJob : List (String × JobRecord) → String → Option JobRecord
  | [], _ => none
  | e :: rest, k => if e.1 = k then some e.2 else lookupJob rest k

/-- In-place update of the record stored under an existing key
(`jobInfo.completed = true` mutates the object held in the registry). -/
def setJob : List (String × JobRecord) → String → JobRecord → List (String × JobRecord)
  | [], _, _ => []
  | e :: rest, k, r => if e.1 = k then (k, r) :: setJob rest k r else e :: setJob rest k r

/-- Activities the bot reacts to: a human message (with the conversation
reference capturable from it), the `jobCompleted` event with a numeric value,
and a membership update carrying the first added member's name. -/
inductive Activity where
  | message (text : String) (ref : ConvRef)
  | jobEvent (value : Nat)
  | memberAdded (firstMemberName : String)
deriving DecidableEq

/-- Something sent during a turn: a reply on the triggering turn's context, or
a message sent on the proactively resumed conversation. -/
inductive Output where
  | reply (text : String)
  | proactive (ref : ConvRef) (text : String)
deriving DecidableEq

/-- Whether an output counts towards `turnContext.responded`. -/
def isReply : Output → Bool
  | Output.reply _ => true
  | Output.proactive _ _ => false

/-- The dispatcher's classification of an inbound message text
(lines 90-105 of the source). -/
inductive Cmd where
  | runC
  | showC
  | doneC (jobId : String)
  | doneMissingC
  | unrecC
deriving DecidableEq

/-- Classify inbound text: trim and lowercase, then exact "run", exact "show",
or a first token "done" whose second token gates on `parseInt` NaN-ness
(an absent `words[1]` is `parseInt(undefined)`, i.e. NaN, modelled by `""`).
Everything else falls through to dialog continuation. -/
def classify (text : String) : Cmd :=
  let u := jsToLower (jsTrim text)
  if u = "run" then Cmd.runC
  else if u = "show" then Cmd.showC
  else if (jsSplitCh ' ' u).headD "" = "done" then
    let ws := jsSplitCh ' ' u
    if jsParseIntOk (ws.getD 1 "") then Cmd.doneC (ws.getD 1 "")
    else Cmd.doneMissingC
  else Cmd.unrecC

/-- `createJob`: the id is `new Date().getMilliseconds()` (the total
milliseconds modulo 1000); an existing non-empty record makes the whole
operation a silent no-op, otherwise the record is inserted and two
confirmations are sent.  (The storage write is modelled as succeeding, so the
`catch` arms of the source never fire.) -/
def createJob (st : BotState) (ref : ConvRef) (nowMs : Nat) : BotState × List Output :=
  let jobId := toString (nowMs % 1000)
  match lookupJob st.jobs jobId with
  | some _ => (st, [])
  | none =>
    ({ st with jobs := st.jobs ++ [(jobId, { completed := false, reference := some ref })] },
     [Output.reply ("Need to create new job ID: " ++ jobId),
      Output.reply "Successful write to log."])

/-- `completeJob`: missing record replies "Sorry no job ...".  A live record
with a reference and `completed = false` resumes the stored conversation via
the adapter: the callback marks the record completed, announces the
completion, and begins HELLO_USER or WHO_ARE_YOU depending on the truthiness
of `user.city`; afterwards the original turn gets "Job completed.
Notification sent.".  If the adapter call throws (`resumeOk = false`) nothing
catches it, so the exception escapes with no state change.  An already
completed record replies "This job is already completed ...". -/
def completeJob (st : BotState) (jobId : String) (resumeOk : Bool) :
    Except Unit (BotState × List Output) :=
  match lookupJob st.jobs jobId with
  | none => Except.ok (st, [Output.reply ("Sorry no job with ID " ++ jobId ++ ".")])
  | some jobInfo =>
    match jobInfo.reference, jobInfo.completed with
    | some ref, false =>
      if resumeOk then
        let jobs2 := setJob st.jobs jobId { jobInfo with completed := true }
        let d :=
          if cityTruthy st.profile then beginDialogTop HELLO_USER st.dialog st.profile
          else beginDialogTop WHO_ARE_YOU st.dialog st.profile
        Except.ok ({ st with jobs := jobs2, dialog := d.stack, profile := d.profile },
          Output.proactive ref ("Your queued job " ++ jobId ++ " just completed.")
            :: d.out.map (Output.proactive ref)
            ++ [Output.reply "Job completed. Notification sent."])
      else Except.error ()
    | _, true =>
      Except.ok (st, [Output.reply "This job is already completed, please start a new job."])
    | none, false => Except.ok (st, [])

/-- One rendered row of the jobs table:
`` `${key} &nbsp; | ${reference.conversation.id.split('|')[0]} &nbsp; | ${completed}` ``. -/
def rowString (key : String) (ref : ConvRef) (completed : Bool) : String :=
  key ++ " &nbsp; | " ++ (jsSplitCh '|' ref.convId).headD "" ++ " &nbsp; | " ++ jsBool completed

/-- Render one registry entry; `none` models the TypeError the source would
throw dereferencing a missing reference. -/
def rowOfE (e : String × JobRecord) : Option String :=
  match e.2.reference with
  | some ref => some (rowString e.1 ref e.2.completed)
  | none => none

/-- Render all rows, propagating a TypeError. -/
def rowsOf : List (String × JobRecord) → Option (List String)
  | [] => some []
  | e :: rest =>
    match rowOfE e, rowsOf rest with
    | some r, some rs => some (r :: rs)
    | _, _ => none

def tableHeader : String :=
  "| Job number &nbsp; | Conversation ID &nbsp; | Completed |<br>| :--- | :---: | :---: |<br>"

/-- `showJobs`: the header plus the rows joined by `<br>`, or a notice that
the log is empty. -/
def showJobs (st : BotState) : Except Unit (List Output) :=
  if st.jobs.length ≠ 0 then
    match rowsOf st.jobs with
    | some rows => Except.ok [Output.reply (tableHeader ++ jsJoin "<br>" rows)]
    | none => Except.error ()
  else Except.ok [Output.reply "The job log is empty."]

/-- `dc.continueDialog()` at the state level; texts sent by the dialog are
replies on the current turn. -/
def continueDialogTop (st : BotState) (text : String) : BotState × List Output :=
  let r := continueDialogTopF st.dialog st.profile text
  ({ st with dialog := r.stack, profile := r.profile }, r.out.map Output.reply)

def helpMsg : String :=
  "Say \"run\" to start a job, \"show\" to view running jobs, or \"done <job number>\" to complete a job."

/-- `onTurn`: messages are classified and dispatched, and if nothing was sent
on the triggering context the dialog is continued with the raw text; the
`jobCompleted` event completes the job named by its numeric value; a
membership update for anyone but the bot gets the help message.  All state is
saved at the end of the turn (an escaped exception therefore loses the turn's
mutations, which `Except.error` models). -/
def onTurn (st : BotState) (act : Activity) (nowMs : Nat) (resumeOk : Bool) :
    Except Unit (BotState × List Output) :=
  match act with
  | Activity.message text ref =>
    let stepRes : Except Unit (BotState × List Output) :=
      match classify text with
      | Cmd.runC => Except.ok (createJob st ref nowMs)
      | Cmd.showC =>
        match showJobs st with
        | Except.ok outs => Except.ok (st, outs)
        | Except.error e => Except.error e
      | Cmd.doneC j => completeJob st j resumeOk
      | Cmd.doneMissingC =>
        Except.ok (st, [Output.reply "Enter the job ID number after \"done\"."])
      | Cmd.unrecC => Except.ok (st, [])
    match stepRes with
    | Except.error e => Except.error e
    | Except.ok (st2, outs) =>
      if outs.any isReply then Except.ok (st2, outs)
      else
        let c := continueDialogTop st2 text
        Except.ok (c.1, outs ++ c.2)
  | Activity.jobEvent v =>
    if jsParseIntOk (toString v) then completeJob st (toString v) resumeOk
    else Except.ok (st, [])
  | Activity.memberAdded nm =>
    if nm = "Bot" then Except.ok (st, []) else Except.ok (st, [Output.reply helpMsg])

/-- The empty starting state: no jobs, empty profile, no active dialog. -/
def initialState : BotState := ⟨[], ⟨none, none⟩, []⟩

/-- Concrete conversation references used in witnesses and counterexamples. -/
def refA : ConvRef := ⟨"conv-a|extra"⟩

def refB : ConvRef := ⟨"conv-b"⟩

/-! ## Registry lemmas -/

theorem lookupJob_append_left {a : List (String × JobRecord)} (b : List (String × JobRecord))
    {k : String} {r : JobRecord} (h : lookupJob a k = some r) :
    lookupJob (a ++ b) k = some r := by
  induction a with
  | nil => simp [lookupJob] at h
  | cons e rest ih =>
    by_cases he : e.1 = k
    · simpa [lookupJob, he] using h
    · simp only [lookupJob, he, if_false, List.cons_append] at h ⊢
      exact ih h

theorem lookupJob_append_right {a : List (String × JobRecord)} (b : List (String × JobRecord))
    {k : String} (h : lookupJob a k = none) :
    lookupJob (a ++ b) k = lookupJob b k := by
  induction a with
  | nil => simp [lookupJob]
  | cons e rest ih =>
    by_cases he : e.1 = k
    · simp [lookupJob, he] at h
    · simp only [lookupJob, he, if_false] at h
      simp only [List.cons_append, lookupJob, he, if_false]
      exact ih h

theorem lookupJob_set_self {jobs : List (String × JobRecord)} {k : String} {r0 : JobRecord}
    (r : JobRecord) (h : lookupJob jobs k = some r0) :
    lookupJob (setJob jobs k r) k = some r := by
  induction jobs with
  | nil => simp [lookupJob] at h
  | cons e rest ih =>
    by_cases he : e.1 = k
    · simp [setJob, he, lookupJob]
    · simp only [lookupJob, he, if_false] at h
      simp only [setJob, he, if_false, lookupJob]
      exact ih h

theorem lookupJob_set_ne {jobs : List (String × JobRecord)} {k k' : String}
    (r : JobRecord) (hne : k' ≠ k) :
    lookupJob (setJob jobs k r) k' = lookupJob jobs k' := by
  induction jobs with
  | nil => simp [setJob, lookupJob]
  | cons e rest ih =>
    by_cases he : e.1 = k
    · simp only [setJob, he, if_true, lookupJob]
      rw [if_neg (fun hk => hne hk.symm), ih]
      rw [← he] at hne ⊢
      rw [if_neg (fun hk => hne hk.symm)]
    · simp only [setJob, he, if_false, lookupJob]
      by_cases he' : e.1 = k'
      · simp [he']
      · simp [he', ih]

theorem setJob_keys (jobs : List (String × JobRecord)) (k : String) (r : JobRecord) :
    (setJob jobs k r).map Prod.fst = jobs.map Prod.fst := by
  induction jobs with
  | nil => simp [setJob]
  | cons e rest ih =>
    by_cases he : e.1 = k
    · simp [setJob, he, ih]
    · simp [setJob, he, ih]

/-- The "already completed" guard of `completeJob`: a completed record makes
`done` reply the idempotence notice, touch nothing, and never call the
adapter, whatever the adapter would do. -/
theorem completeJob_already {st : BotState} {id : String} {r : JobRecord} (b : Bool)
    (h : lookupJob st.jobs id = some r) (hc : r.completed = true) :
    completeJob st id b =
      Except.ok (st, [Output.reply "This job is already completed, please start a new job."]) := by
  unfold completeJob
  rw [h]
  rcases r with ⟨comp, ref?⟩
  subst hc
  rcases ref? with _ | ref <;> simp

/-- Claim C1: the `completed` flag of a job transitions false→true at most
once.  A first successful `done <id>` on a live record marks it completed;
any subsequent `done <id>` replies "This job is already completed, please
start a new job.", leaves the state untouched, sends nothing proactively and
does not invoke the adapter's resume (the result is the same whether the
adapter would succeed or fail); in general no notification is ever attempted
for a record with `completed = true`. -/
theorem c1_completed_flips_once :
    (∀ (st : BotState) (id : String) (r : JobRecord) (ref : ConvRef),
      lookupJob st.jobs id = some r → r.reference = some ref → r.completed = false →
      ∃ st2 out, completeJob st id true = Except.ok (st2, out) ∧
        lookupJob st2.jobs id = some { completed := true, reference := some ref } ∧
        ∀ b, completeJob st2 id b =
          Except.ok (st2, [Output.reply "This job is already completed, please start a new job."])) ∧
    (∀ (st : BotState) (id : String) (r : JobRecord) (b : Bool),
      lookupJob st.jobs id = some r → r.completed = true →
      completeJob st id b =
        Except.ok (st, [Output.reply "This job is already completed, please start a new job."])) := by
  constructor
  · intro st id r ref hlook href hcomp
    rcases r with ⟨comp, ref?⟩
    subst href
    subst hcomp
    simp only [completeJob, hlook]
    refine ⟨_, _, rfl, ?_, ?_⟩
    · exact lookupJob_set_self _ hlook
    · intro b
      exact completeJob_already b (lookupJob_set_self _ hlook) rfl
  · intro st id r b hlook hcomp
    exact completeJob_already b hlook hcomp

/-- Witness for C1 at a concrete state: job "5" is live and uncompleted. -/
theorem c1_completed_flips_once_witness :
    (lookupJob [("5", JobRecord.mk false (some refA))] "5" = some ⟨false, some refA⟩ ∧
      (⟨false, (some refA : Option ConvRef)⟩ : JobRecord).reference = some refA ∧
      (⟨false, (some refA : Option ConvRef)⟩ : JobRecord).completed = false) ∧
    ∃ st2 out,
      completeJob ⟨[("5", ⟨false, some refA⟩)], ⟨none, none⟩, []⟩ "5" true = Except.ok (st2, out) ∧
      lookupJob st2.jobs "5" = some ⟨true, some refA⟩ ∧
      ∀ b, completeJob st2 "5" b =
        Except.ok (st2, [Output.reply "This job is already completed, please start a new job."]) :=
  ⟨⟨rfl, rfl, rfl⟩,
    c1_completed_flips_once.1 ⟨[("5", ⟨false, some refA⟩)], ⟨none, none⟩, []⟩ "5"
      ⟨false, some refA⟩ refA rfl rfl rfl⟩

/-- Counterexample to claim C2 as stated: for a live, uncompleted job "1", a
failing proactive resume makes `completeJob` end in an uncaught exception —
no delivery-failure message is sent on the caller's turn, and since the
record is only marked completed inside the resume callback, the job does NOT
remain `completed = true` (the turn's mutations are lost).  The claim's
"reported as a user-visible delivery-failure message" and "record
nevertheless remains marked completed=true" are both false here. -/
theorem c2_resume_failure_cex :
    completeJob ⟨[("1", ⟨false, some refA⟩)], ⟨none, none⟩, []⟩ "1" false =
      Except.error () := rfl

/-- Claim C2, amended: if the proactive resume step of `completeJob` fails,
the exception propagates out of `completeJob` uncaught — no user-visible
delivery-failure message is produced and the job's record is not marked
completed (completion is recorded only inside the resume callback, which
never ran). -/
theorem c2_resume_failure_propagates (st : BotState) (id : String) (r : JobRecord)
    (ref : ConvRef) (hlook : lookupJob st.jobs id = some r)
    (href : r.reference = some ref) (hcomp : r.completed = false) :
    completeJob st id false = Except.error () := by
  rcases r with ⟨comp, ref?⟩
  subst href
  subst hcomp
  simp [completeJob, hlook]

/-- Witness for the amended C2 at a concrete live job. -/
theorem c2_resume_failure_propagates_witness :
    (lookupJob [("1", JobRecord.mk false (some refA))] "1" = some ⟨false, some refA⟩ ∧
      (⟨false, (some refA : Option ConvRef)⟩ : JobRecord).completed = false) ∧
    completeJob ⟨[("1", ⟨false, some refA⟩)], ⟨none, none⟩, []⟩ "1" false = Except.error () :=
  ⟨⟨rfl, rfl⟩,
    c2_resume_failure_propagates ⟨[("1", ⟨false, some refA⟩)], ⟨none, none⟩, []⟩ "1"
      ⟨false, some refA⟩ refA rfl rfl rfl⟩

/-- Counterexample to claim C3 as stated: with job "5" already live, a `run`
turn landing on the same id (millisecond 1005 → id 5) is a no-op that sends
NOTHING — the output list is empty, so no duplicate/"already exists" notice
is ever replied, contrary to the claim (the registry-unchanged half is
true). -/
theorem c3_duplicate_run_silent_cex :
    createJob ⟨[("5", ⟨false, some refA⟩)], ⟨none, none⟩, []⟩ refB 1005 =
      (⟨[("5", ⟨false, some refA⟩)], ⟨none, none⟩, []⟩, []) := rfl

/-- Claim C3, amended: when the generated id already has a live record, job
creation is a silent no-op — the registry (indeed the whole state) is
unchanged and no second live record is produced, but no duplicate notice is
replied; the empty response makes the turn fall through to dialog
continuation. -/
theorem c3_duplicate_run_noop (st : BotState) (ref : ConvRef) (nowMs : Nat) (r : JobRecord)
    (hdup : lookupJob st.jobs (toString (nowMs % 1000)) = some r) :
    createJob st ref nowMs = (st, []) ∧
    ∀ b, onTurn st (Activity.message "run" ref) nowMs b =
      Except.ok (continueDialogTop st "run") := by
  have hcreate : createJob st ref nowMs = (st, []) := by
    simp [createJob, hdup]
  refine ⟨hcreate, fun b => ?_⟩
  have hc : classify "run" = Cmd.runC := rfl
  simp [onTurn, hc, hcreate, isReply, continueDialogTop]

/-- Witness for the amended C3: duplicate `run` at millisecond 1005 with job
"5" live replies nothing and changes nothing. -/
theorem c3_duplicate_run_noop_witness :
    (lookupJob [("5", JobRecord.mk false (some refA))] (toString (1005 % 1000)) =
      some ⟨false, some refA⟩) ∧
    createJob ⟨[("5", ⟨false, some refA⟩)], ⟨none, none⟩, []⟩ refB 1005 =
      (⟨[("5", ⟨false, some refA⟩)], ⟨none, none⟩, []⟩, []) ∧
    ∀ b, onTurn ⟨[("5", ⟨false, some refA⟩)], ⟨none, none⟩, []⟩ (Activity.message "run" refB)
        1005 b =
      Except.ok (continueDialogTop ⟨[("5", ⟨false, some refA⟩)], ⟨none, none⟩, []⟩ "run") :=
  ⟨rfl,
    c3_duplicate_run_noop ⟨[("5", ⟨false, some refA⟩)], ⟨none, none⟩, []⟩ refB 1005
      ⟨false, some refA⟩ rfl⟩

/-- Claim C7: `done <id>` for an id with no record replies exactly
"Sorry no job with ID <id>." and leaves everything unchanged — no record is
created or mutated and no proactive resume is attempted (the result does not
depend on the adapter).  The second conjunct states it for a full `done 9999`
message turn: the reply marks the turn as responded, so not even the dialog
is continued. -/
theorem c7_done_unknown_id :
    (∀ (st : BotState) (id : String) (b : Bool),
      lookupJob st.jobs id = none →
      completeJob st id b =
        Except.ok (st, [Output.reply ("Sorry no job with ID " ++ id ++ ".")])) ∧
    (∀ (st : BotState) (ref : ConvRef) (nowMs : Nat) (b : Bool),
      lookupJob st.jobs "9999" = none →
      onTurn st (Activity.message "done 9999" ref) nowMs b =
        Except.ok (st, [Output.reply "Sorry no job with ID 9999."])) := by
  have habs : ∀ (st : BotState) (id : String) (b : Bool),
      lookupJob st.jobs id = none →
      completeJob st id b =
        Except.ok (st, [Output.reply ("Sorry no job with ID " ++ id ++ ".")]) := by
    intro st id b h
    simp [completeJob, h]
  refine ⟨habs, fun st ref nowMs b h => ?_⟩
  have hc : classify "done 9999" = Cmd.doneC "9999" := rfl
  have hdone := habs st "9999" b h
  simp [onTurn, hc, hdone, isReply]

/-- Witness for C7: `done 9999` against a registry holding only job "5". -/
theorem c7_done_unknown_id_witness :
    (lookupJob [("5", JobRecord.mk false (some refA))] "9999" = none) ∧
    onTurn ⟨[("5", ⟨false, some refA⟩)], ⟨none, none⟩, []⟩ (Activity.message "done 9999" refB)
        0 true =
      Except.ok (⟨[("5", ⟨false, some refA⟩)], ⟨none, none⟩, []⟩,
        [Output.reply "Sorry no job with ID 9999."]) :=
  ⟨rfl,
    c7_done_unknown_id.2 ⟨[("5", ⟨false, some refA⟩)], ⟨none, none⟩, []⟩ refB 0 true rfl⟩

/-! ## Dialog engine step lemmas (concrete stacks, symbolic profile/inputs) -/

theorem runStep_hello0 (p : UserProfile) :
    runStep 8 HELLO_USER 0 none [] p =
      ⟨[], p, ["Hello, " ++ jsStr p.name ++ " from " ++ jsStr p.city]⟩ := rfl

theorem runStep_who0 (p : UserProfile) :
    runStep 8 WHO_ARE_YOU 0 none [] p =
      ⟨[Frame.prompt NAME_PROMPT namePromptText, Frame.waterfall WHO_ARE_YOU 0], p,
        [namePromptText]⟩ := rfl

theorem runStep_who1 (p : UserProfile) (n : String) :
    runStep 8 WHO_ARE_YOU 1 (some n) [] p =
      ⟨[Frame.prompt CITY_PROMPT cityPromptText, Frame.waterfall WHO_ARE_YOU 1],
        { p with name := some n }, [cityPromptText]⟩ := rfl

theorem runStep_who2 (p : UserProfile) (c : String) :
    runStep 8 WHO_ARE_YOU 2 (some c) [] p =
      ⟨[], { p with city := some c }, []⟩ := rfl

/-- Feeding a non-empty reply to the pending name prompt stores the name and
prompts for the city. -/
theorem continueDialog_name (p : UserProfile) (n : String) (h : n ≠ "") :
    continueDialogTopF [Frame.prompt NAME_PROMPT namePromptText,
        Frame.waterfall WHO_ARE_YOU 0] p n =
      ⟨[Frame.prompt CITY_PROMPT cityPromptText, Frame.waterfall WHO_ARE_YOU 1],
        { p with name := some n }, [cityPromptText]⟩ := by
  simp only [continueDialogTopF, h, if_false, List.length_nil, Nat.mul_zero, Nat.zero_add]
  exact runStep_who1 p n

/-- Feeding a non-empty reply to the pending city prompt stores the city and
pops the dialog with no further output (in particular, no greeting). -/
theorem continueDialog_city (p : UserProfile) (c : String) (h : c ≠ "") :
    continueDialogTopF [Frame.prompt CITY_PROMPT cityPromptText,
        Frame.waterfall WHO_ARE_YOU 1] p c =
      ⟨[], { p with city := some c }, []⟩ := by
  simp only [continueDialogTopF, h, if_false, List.length_nil, Nat.mul_zero, Nat.zero_add]
  exact runStep_who2 p c

/-- Claim C5: in the proactive notification turn the dialog begun depends
only on whether `UserProfile.city` is set (JS-truthy — the profile's own
writers only ever store non-empty prompt text) at notification time.  City
set: HELLO_USER runs, the greeting is emitted immediately on the proactive
turn, no prompt is issued, and the dialog stack ends empty.  City not set:
WHO_ARE_YOU runs and issues exactly two prompts — the name prompt on the
notification turn and, via the two continuation lemmas in the last two
conjuncts, the city prompt after the name reply — after which the dialog pops
with no output, so no greeting is ever emitted by WHO_ARE_YOU itself. -/
theorem c5_notification_branch :
    (∀ (st : BotState) (id : String) (r : JobRecord) (ref : ConvRef),
      lookupJob st.jobs id = some r → r.reference = some ref → r.completed = false →
      st.dialog = [] → cityTruthy st.profile = true →
      completeJob st id true =
        Except.ok ({ st with jobs := setJob st.jobs id ⟨true, some ref⟩, dialog := [] },
          [Output.proactive ref ("Your queued job " ++ id ++ " just completed."),
           Output.proactive ref
             ("Hello, " ++ jsStr st.profile.name ++ " from " ++ jsStr st.profile.city),
           Output.reply "Job completed. Notification sent."])) ∧
    (∀ (st : BotState) (id : String) (r : JobRecord) (ref : ConvRef),
      lookupJob st.jobs id = some r → r.reference = some ref → r.completed = false →
      st.dialog = [] → cityTruthy st.profile = false →
      completeJob st id true =
        Except.ok ({ st with
            jobs := setJob st.jobs id ⟨true, some ref⟩
            dialog := [Frame.prompt NAME_PROMPT namePromptText,
              Frame.waterfall WHO_ARE_YOU 0] },
          [Output.proactive ref ("Your queued job " ++ id ++ " just completed."),
           Output.proactive ref namePromptText,
           Output.reply "Job completed. Notification sent."])) ∧
    (∀ (p : UserProfile) (n : String), n ≠ "" →
      continueDialogTopF [Frame.prompt NAME_PROMPT namePromptText,
          Frame.waterfall WHO_ARE_YOU 0] p n =
        ⟨[Frame.prompt CITY_PROMPT cityPromptText, Frame.waterfall WHO_ARE_YOU 1],
          { p with name := some n }, [cityPromptText]⟩) ∧
    (∀ (p : UserProfile) (c : String), c ≠ "" →
      continueDialogTopF [Frame.prompt CITY_PROMPT cityPromptText,
          Frame.waterfall WHO_ARE_YOU 1] p c =
        ⟨[], { p with city := some c }, []⟩) := by
  refine ⟨?_, ?_, continueDialog_name, continueDialog_city⟩
  · intro st id r ref hlook href hcomp hd hcity
    rcases r with ⟨comp, ref?⟩
    subst href
    subst hcomp
    simp only [completeJob, hlook, hcity, if_true, hd, beginDialogTop, List.length_nil,
      Nat.mul_zero, Nat.zero_add, runStep_hello0, List.map_cons, List.map_nil]
    rfl
  · intro st id r ref hlook href hcomp hd hcity
    rcases r with ⟨comp, ref?⟩
    subst href
    subst hcomp
    simp only [completeJob, hlook, hcity, if_false, hd, beginDialogTop, List.length_nil,
      Nat.mul_zero, Nat.zero_add, runStep_who0, List.map_cons, List.map_nil]
    rfl

/-- Witness for C5: a state with job "7" live, the profile fully set, resumes
into HELLO_USER and greets immediately. -/
theorem c5_notification_branch_witness :
    (lookupJob [("7", JobRecord.mk false (some refA))] "7" = some ⟨false, some refA⟩ ∧
      cityTruthy ⟨some "Ada", some "Seattle"⟩ = true) ∧
    completeJob ⟨[("7", ⟨false, some refA⟩)], ⟨some "Ada", some "Seattle"⟩, []⟩ "7" true =
      Except.ok (⟨[("7", ⟨true, some refA⟩)], ⟨some "Ada", some "Seattle"⟩, []⟩,
        [Output.proactive refA "Your queued job 7 just completed.",
         Output.proactive refA "Hello, Ada from Seattle",
         Output.reply "Job completed. Notification sent."]) := by
  refine ⟨⟨rfl, rfl⟩, ?_⟩
  have h := c5_notification_branch.1
    ⟨[("7", ⟨false, some refA⟩)], ⟨some "Ada", some "Seattle"⟩, []⟩ "7"
    ⟨false, some refA⟩ refA rfl rfl rfl rfl rfl
  exact h.trans (by rfl)

/-! ## Concrete onboarding scenario (claim C6) -/

/-- Initial scenario state: jobs 1 and 2 pending (created from conversations
`refA` and `refB`), empty profile, no active dialog. -/
def scen0 : BotState :=
  ⟨[("1", ⟨false, some refA⟩), ("2", ⟨false, some refB⟩)], ⟨none, none⟩, []⟩

def scen1 : BotState :=
  ⟨[("1", ⟨true, some refA⟩), ("2", ⟨false, some refB⟩)], ⟨none, none⟩,
    [Frame.prompt NAME_PROMPT namePromptText, Frame.waterfall WHO_ARE_YOU 0]⟩

def scen2 : BotState :=
  ⟨[("1", ⟨true, some refA⟩), ("2", ⟨false, some refB⟩)], ⟨some "Ada", none⟩,
    [Frame.prompt CITY_PROMPT cityPromptText, Frame.waterfall WHO_ARE_YOU 1]⟩

def scen3 : BotState :=
  ⟨[("1", ⟨true, some refA⟩), ("2", ⟨false, some refB⟩)], ⟨some "Ada", some "Seattle"⟩, []⟩

def scen4 : BotState :=
  ⟨[("1", ⟨true, some refA⟩), ("2", ⟨true, some refB⟩)], ⟨some "Ada", some "Seattle"⟩, []⟩

/-- Claim C6: a user with no stored city who completes job 1, then answers
the WHO_ARE_YOU prompts with "Ada" and "Seattle", ends with the persisted
profile `{name:"Ada", city:"Seattle"}` and an empty (popped) dialog stack;
the next proactive notification (here the `jobCompleted` event for job 2)
runs HELLO_USER and emits exactly the greeting "Hello, Ada from Seattle". -/
theorem c6_onboarding_scenario :
    onTurn scen0 (Activity.message "done 1" refA) 0 true =
      Except.ok (scen1,
        [Output.proactive refA "Your queued job 1 just completed.",
         Output.proactive refA namePromptText,
         Output.reply "Job completed. Notification sent."]) ∧
    onTurn scen1 (Activity.message "Ada" refA) 0 true =
      Except.ok (scen2, [Output.reply cityPromptText]) ∧
    onTurn scen2 (Activity.message "Seattle" refA) 0 true =
      Except.ok (scen3, []) ∧
    scen3.profile = ⟨some "Ada", some "Seattle"⟩ ∧
    scen3.dialog = [] ∧
    onTurn scen3 (Activity.jobEvent 2) 0 true =
      Except.ok (scen4,
        [Output.proactive refB "Your queued job 2 just completed.",
         Output.proactive refB "Hello, Ada from Seattle",
         Output.reply "Job completed. Notification sent."]) :=
  ⟨rfl, rfl, rfl, rfl, rfl, rfl⟩

/-- Unclassified text leaves the turn unresponded, so it falls through to
`dc.continueDialog()` fed the raw inbound text. -/
theorem onTurn_unrecognized {text : String} (st : BotState) (ref : ConvRef)
    (nowMs : Nat) (b : Bool) (h : classify text = Cmd.unrecC) :
    onTurn st (Activity.message text ref) nowMs b =
      Except.ok (continueDialogTop st text) := by
  simp [onTurn, h, isReply, continueDialogTop]

/-- Claim C8: the dispatcher, a total function on the trimmed lowercased
text, yields exactly one classification, characterised by: RUN iff the text
is exactly "run"; SHOW iff exactly "show"; DONE(j) iff the first
space-separated token is "done" and the second token j passes the
`parseInt`-not-NaN test; DONE-with-missing-id iff the first token is "done"
and the second token is absent (modelled as `""`, since
`parseInt(undefined)` is NaN) or non-numeric; otherwise UNRECOGNIZED, in
which case the turn falls through to dialog continuation. -/
theorem c8_dispatcher_classification (text : String) :
    (classify text = Cmd.runC ↔ jsToLower (jsTrim text) = "run") ∧
    (classify text = Cmd.showC ↔ jsToLower (jsTrim text) = "show") ∧
    (∀ j, classify text = Cmd.doneC j ↔
      ((jsSplitCh ' ' (jsToLower (jsTrim text))).headD "" = "done" ∧
       (jsSplitCh ' ' (jsToLower (jsTrim text))).getD 1 "" = j ∧
       jsParseIntOk j = true)) ∧
    (classify text = Cmd.doneMissingC ↔
      ((jsSplitCh ' ' (jsToLower (jsTrim text))).headD "" = "done" ∧
       jsParseIntOk ((jsSplitCh ' ' (jsToLower (jsTrim text))).getD 1 "") = false)) ∧
    (classify text = Cmd.unrecC ↔
      (jsToLower (jsTrim text) ≠ "run" ∧ jsToLower (jsTrim text) ≠ "show" ∧
       (jsSplitCh ' ' (jsToLower (jsTrim text))).headD "" ≠ "done")) ∧
    (∀ (st : BotState) (ref : ConvRef) (nowMs : Nat) (b : Bool),
      classify text = Cmd.unrecC →
      onTurn st (Activity.message text ref) nowMs b =
        Except.ok (continueDialogTop st text)) := by
  refine ⟨?_, ?_, ?_, ?_, ?_, fun st ref nowMs b h => onTurn_unrecognized st ref nowMs b h⟩
  all_goals
    simp only [classify]
    split_ifs with h1 h2 h3 h4 <;> simp_all <;> decide

/-- Witness for C8: "hello" is unrecognized and falls through to the dialog. -/
theorem c8_dispatcher_classification_witness :
    classify "hello" = Cmd.unrecC ∧
    onTurn initialState (Activity.message "hello" refA) 0 true =
      Except.ok (continueDialogTop initialState "hello") :=
  ⟨rfl, (c8_dispatcher_classification "hello").2.2.2.2.2 initialState refA 0 true rfl⟩

/-- A successful DONE classification certifies that its token passed the
`parseInt` test (the only branch producing `Cmd.doneC` is guarded by it). -/
theorem classify_doneC_ok {text j : String} (h : classify text = Cmd.doneC j) :
    jsParseIntOk j = true := by
  simp only [classify] at h
  split_ifs at h
  all_goals simp_all

/-- A lookup hit is a membership in the registry list. -/
theorem lookupJob_mem {jobs : List (String × JobRecord)} {k : String} {r : JobRecord}
    (h : lookupJob jobs k = some r) : (k, r) ∈ jobs := by
  induction jobs with
  | nil => simp [lookupJob] at h
  | cons e rest ih =>
    by_cases he : e.1 = k
    · simp only [lookupJob, he, if_true, Option.some.injEq] at h
      subst h
      rw [← he]
      simp
    · simp only [lookupJob, he, if_false] at h
      exact List.mem_cons_of_mem e (ih h)

/-- When every stored record carries a reference (true of every record the
code creates), a non-throwing `completeJob` always replies something on the
triggering turn, so the message path never falls through to the dialog. -/
theorem completeJob_has_reply {st : BotState} {j : String} {b : Bool}
    {st2 : BotState} {outs : List Output}
    (hinv : ∀ e ∈ st.jobs, (e.2).reference.isSome = true)
    (h : completeJob st j b = Except.ok (st2, outs)) :
    outs.any isReply = true := by
  unfold completeJob at h
  cases hl : lookupJob st.jobs j with
  | none =>
    rw [hl] at h
    simp only [Except.ok.injEq, Prod.mk.injEq] at h
    rw [← h.2]
    simp [isReply]
  | some r =>
    rw [hl] at h
    have href : r.reference.isSome = true := hinv (j, r) (lookupJob_mem hl)
    obtain ⟨ref, hrefeq⟩ := Option.isSome_iff_exists.mp href
    rcases r with ⟨comp, ref?⟩
    subst hrefeq
    cases comp with
    | true =>
      simp only [Except.ok.injEq, Prod.mk.injEq] at h
      rw [← h.2]
      simp [isReply]
    | false =>
      cases b with
      | false => simp at h
      | true =>
        simp only [eq_self_iff_true, if_true, Except.ok.injEq, Prod.mk.injEq] at h
        rw [← h.2]
        simp [isReply]

/-- Claim C9: a `jobCompleted` system event carrying the numeric value `v`
has exactly the same effect (on the registry, the dialog state, the profile,
and every message sent, proactive or not) as a message turn that the
dispatcher classifies as DONE with the same id — both paths invoke
`completeJob` with the id `toString v`.  The hypothesis that stored records
carry references holds for every record the code creates (cf. C10's
invariant); it rules out the degenerate record for which `completeJob` sends
nothing and only the message path would continue a dialog. -/
theorem c9_event_equiv_done (st : BotState) (v : Nat) (text : String) (ref : ConvRef)
    (nowMs : Nat) (b : Bool)
    (hinv : ∀ e ∈ st.jobs, (e.2).reference.isSome = true)
    (hc : classify text = Cmd.doneC (toString v)) :
    onTurn st (Activity.jobEvent v) nowMs b = onTurn st (Activity.message text ref) nowMs b := by
  have hok : jsParseIntOk (toString v) = true := classify_doneC_ok hc
  simp only [onTurn, hok, if_true, hc]
  cases hres : completeJob st (toString v) b with
  | error e => simp
  | ok p =>
    obtain ⟨st2, outs⟩ := p
    have hr : outs.any isReply = true := completeJob_has_reply hinv hres
    simp [hr]

/-- Witness for C9: the event `jobCompleted(5)` and the message "done 5"
coincide on the empty registry. -/
theorem c9_event_equiv_done_witness :
    ((∀ e ∈ initialState.jobs, (e.2).reference.isSome = true) ∧
      classify "done 5" = Cmd.doneC (toString 5)) ∧
    onTurn initialState (Activity.jobEvent 5) 0 true =
      onTurn initialState (Activity.message "done 5" refA) 0 true :=
  ⟨⟨by simp [initialState], rfl⟩,
    c9_event_equiv_done initialState 5 "done 5" refA 0 true (by simp [initialState]) rfl⟩

/-- A key present among the registry's keys is found by lookup. -/
theorem lookupJob_isSome_of_mem_keys {jobs : List (String × JobRecord)} {k : String}
    (h : k ∈ jobs.map Prod.fst) : lookupJob jobs k ≠ none := by
  induction jobs with
  | nil => simp at h
  | cons e rest ih =>
    by_cases he : e.1 = k
    · simp [lookupJob, he]
    · simp only [List.map_cons, List.mem_cons] at h
      rcases h with h | h
    
      · exact absurd h.symm he
      · simp only [lookupJob, he, if_false]
        exact ih h

/-- Invariant of the registry's key set: the keys are the decimal renderings
of distinct numbers below 1000 (the range of `getMilliseconds`). -/
def KeysBound (jobs : List (String × JobRecord)) : Prop :=
  ∃ ns : List Nat, ns.Nodup ∧ (∀ n ∈ ns, n < 1000) ∧
    jobs.map Prod.fst = ns.map (fun n => toString n)

/-- Claim C10: every id `createJob` generates is the milliseconds component
of the current time — `nowMs % 1000`, an integer in [0, 999] — so (via the
`KeysBound` invariant, which holds initially and is preserved by both
registry mutations) at most 1000 distinct job records can ever coexist; two
`run` commands landing on the same millisecond-of-second value produce the
same id, and the second creation is skipped entirely, creating no record and
sending no reply. -/
theorem c10_job_id_policy :
    (∀ nowMs : Nat, nowMs % 1000 ≤ 999) ∧
    (∀ (st : BotState) (ref : ConvRef) (nowMs : Nat),
      lookupJob st.jobs (toString (nowMs % 1000)) = none →
      (createJob st ref nowMs).1.jobs =
        st.jobs ++ [(toString (nowMs % 1000), ⟨false, some ref⟩)]) ∧
    (∀ (st : BotState) (ref1 ref2 : ConvRef) (ms1 ms2 : Nat),
      ms1 % 1000 = ms2 % 1000 →
      createJob (createJob st ref1 ms1).1 ref2 ms2 = ((createJob st ref1 ms1).1, [])) ∧
    KeysBound initialState.jobs ∧
    (∀ (st : BotState) (ref : ConvRef) (nowMs : Nat),
      KeysBound st.jobs → KeysBound (createJob st ref nowMs).1.jobs) ∧
    (∀ (st st2 : BotState) (id : String) (b : Bool) (outs : List Output),
      KeysBound st.jobs → completeJob st id b = Except.ok (st2, outs) →
      KeysBound st2.jobs) ∧
    (∀ jobs : List (String × JobRecord), KeysBound jobs → jobs.length ≤ 1000) := by
  have hmod : ∀ nowMs : Nat, nowMs % 1000 ≤ 999 := by
    intro nowMs
    have := Nat.mod_lt nowMs (show 0 < 1000 by norm_num)
    omega
  refine ⟨hmod, ?_, ?_, ?_, ?_, ?_, ?_⟩
  · intro st ref nowMs h
    simp [createJob, h]
  · intro st ref1 ref2 ms1 ms2 hms
    cases hl : lookupJob st.jobs (toString (ms1 % 1000)) with
    | some r =>
      have h1 : (createJob st ref1 ms1).1 = st := by simp [createJob, hl]
      rw [h1]
      simp only [createJob, ← hms, hl]
    | none =>
      set st1 := (createJob st ref1 ms1).1 with hst1
      have h1 : st1.jobs =
          st.jobs ++ [(toString (ms1 % 1000), ⟨false, some ref1⟩)] := by
        rw [hst1]
        simp [createJob, hl]
      have h2 : lookupJob st1.jobs (toString (ms2 % 1000)) =
          some ⟨false, some ref1⟩ := by
        rw [h1, ← hms, lookupJob_append_right _ hl]
        simp [lookupJob]
      simp only [createJob, h2]
  · exact ⟨[], by simp, by simp, by simp [initialState]⟩
  · rintro st ref nowMs ⟨ns, hnd, hlt, hmap⟩
    cases hl : lookupJob st.jobs (toString (nowMs % 1000)) with
    | some r =>
      have h1 : (createJob st ref nowMs).1 = st := by simp [createJob, hl]
      rw [h1]
      exact ⟨ns, hnd, hlt, hmap⟩
    | none =>
      have h1 : (createJob st ref nowMs).1.jobs =
          st.jobs ++ [(toString (nowMs % 1000), ⟨false, some ref⟩)] := by
        simp [createJob, hl]
      refine ⟨ns ++ [nowMs % 1000], ?_, ?_, ?_⟩
      · have hnotin : nowMs % 1000 ∉ ns := by
          intro hmem
          refine lookupJob_isSome_of_mem_keys ?_ hl
          rw [hmap]
          exact List.mem_map_of_mem _ hmem
        simp [List.nodup_append, hnd, hnotin]
      · intro n hn
        rcases List.mem_append.mp hn with hn | hn
        · exact hlt n hn
        · simp only [List.mem_singleton] at hn
          subst hn
          exact Nat.mod_lt _ (by norm_num)
      · rw [h1]
        simp [hmap]
  · intro st st2 id b outs hkb h
    unfold completeJob at h
    cases hl : lookupJob st.jobs id with
    | none =>
      rw [hl] at h
      simp only [Except.ok.injEq, Prod.mk.injEq] at h
      rw [← h.1]
      exact hkb
    | some r =>
      rw [hl] at h
      rcases r with ⟨comp, ref?⟩
      cases comp with
      | true =>
        rcases ref? with _ | ref <;>
          · simp only [Except.ok.injEq, Prod.mk.injEq] at h
            rw [← h.1]
            exact hkb
      | false =>
        rcases ref? with _ | ref
        · simp only [Except.ok.injEq, Prod.mk.injEq] at h
          rw [← h.1]
          exact hkb
        · cases b with
          | false => simp at h
          | true =>
            simp only [eq_self_iff_true, if_true, Except.ok.injEq, Prod.mk.injEq] at h
            obtain ⟨ns, hnd, hlt, hmap⟩ := hkb
            refine ⟨ns, hnd, hlt, ?_⟩
            rw [← h.1]
            simpa [setJob_keys] using hmap
  · rintro jobs ⟨ns, hnd, hlt, hmap⟩
    have hlen : jobs.length = ns.length := by
      have := congrArg List.length hmap
      simpa using this
    rw [hlen]
    have hsub : ns ⊆ List.range 1000 := fun n hn => List.mem_range.mpr (hlt n hn)
    have := (hnd.subperm hsub).length_le
    simpa using this

/-- Witness for C10: creating at millisecond 1005 on the empty registry uses
id "5"; an immediately following `run` at millisecond 5 (same
millisecond-of-second) is skipped; and a singleton registry obeying the key
invariant has at most 1000 records. -/
theorem c10_job_id_policy_witness :
    (lookupJob initialState.jobs (toString (1005 % 1000)) = none ∧
      (createJob initialState refA 1005).1.jobs =
        initialState.jobs ++ [(toString (1005 % 1000), ⟨false, some refA⟩)]) ∧
    ((1005 : Nat) % 1000 = 5 % 1000 ∧
      createJob (createJob initialState refA 1005).1 refB 5 =
        ((createJob initialState refA 1005).1, [])) ∧
    (KeysBound [("5", JobRecord.mk false (some refA))] ∧
      [("5", JobRecord.mk false (some refA))].length ≤ 1000) :=
  ⟨⟨rfl, c10_job_id_policy.2.1 initialState refA 1005 rfl⟩,
   ⟨by norm_num, c10_job_id_policy.2.2.1 initialState refA refB 1005 5 (by norm_num)⟩,
   ⟨⟨[5], by simp, by simp, rfl⟩,
    c10_job_id_policy.2.2.2.2.2.2 [("5", ⟨false, some refA⟩)] ⟨[5], by simp, by simp, rfl⟩⟩⟩

/-! ## Sequences of `run` commands (claim C4) -/

/-- The id `createJob` derives for a `run` arriving at absolute millisecond
time `mr.1` (from conversation `mr.2`). -/
def idOf (mr : Nat × ConvRef) : String := toString (mr.1 % 1000)

/-- The registry entry such a `run` inserts. -/
def entryOf (mr : Nat × ConvRef) : String × JobRecord :=
  (idOf mr, { completed := false, reference := some mr.2 })

/-- Process a sequence of `run` commands, each with its arrival time and
conversation reference. -/
def runMany : List (Nat × ConvRef) → BotState → BotState
  | [], st => st
  | mr :: rest, st => runMany rest (createJob st mr.2 mr.1).1

/-- `setJob` with an absent key changes nothing. -/
theorem setJob_not_mem {jobs : List (String × JobRecord)} {k : String} (r : JobRecord)
    (h : k ∉ jobs.map Prod.fst) : setJob jobs k r = jobs := by
  induction jobs with
  | nil => rfl
  | cons e rest ih =>
    simp only [List.map_cons, List.mem_cons, not_or] at h
    have he : e.1 ≠ k := fun hk => h.1 hk.symm
    simp only [setJob, he, if_false]
    rw [ih h.2]

/-- Fresh distinct runs append their entries in order. -/
theorem runMany_jobs (l : List (Nat × ConvRef)) (st : BotState)
    (hfresh : ∀ mr ∈ l, lookupJob st.jobs (idOf mr) = none)
    (hnd : (l.map idOf).Nodup) :
    runMany l st = { st with jobs := st.jobs ++ l.map entryOf } := by
  induction l generalizing st with
  | nil => simp [runMany]
  | cons mr rest ih =>
    have h0 : lookupJob st.jobs (idOf mr) = none := hfresh mr (by simp)
    have hcr : (createJob st mr.2 mr.1).1 = { st with jobs := st.jobs ++ [entryOf mr] } := by
      simp [createJob, idOf, entryOf] at h0 ⊢
      simp [h0]
    simp only [List.map_cons, List.nodup_cons] at hnd
    have hstep : runMany (mr :: rest) st =
        runMany rest { st with jobs := st.jobs ++ [entryOf mr] } := by
      simp only [runMany, hcr]
    rw [hstep, ih _ ?_ hnd.2]
    · simp [List.append_assoc]
    · intro mr2 hmr2
      have hne : idOf mr ≠ idOf mr2 := by
        intro he
        exact hnd.1 (he ▸ List.mem_map_of_mem idOf hmr2)
      have hskip := lookupJob_append_right [entryOf mr]
        (hfresh mr2 (List.mem_cons_of_mem mr hmr2))
      simp only [hskip]
      simp [lookupJob, entryOf, hne]

/-- Looking up a run's id in the freshly built registry finds its entry. -/
theorem lookupJob_map_entryOf (l1 l2 : List (Nat × ConvRef)) (mr : Nat × ConvRef)
    (hnd : (((l1 ++ mr :: l2)).map idOf).Nodup) :
    lookupJob ((l1 ++ mr :: l2).map entryOf) (idOf mr) = some ⟨false, some mr.2⟩ := by
  induction l1 with
  | nil => simp [lookupJob, entryOf]
  | cons e l1 ih =>
    simp only [List.cons_append, List.map_cons, List.nodup_cons] at hnd
    have hne : (entryOf e).1 ≠ idOf mr := by
      simp only [entryOf]
      intro he
      refine hnd.1 (he ▸ ?_)
      simp
    simp only [List.cons_append, List.map_cons, lookupJob, hne, if_false]
    exact ih hnd.2

/-- Marking a run's job complete rewrites exactly its entry, at its
position, and no other. -/
theorem setJob_map_entryOf (l1 l2 : List (Nat × ConvRef)) (mr : Nat × ConvRef)
    (r : JobRecord) (hnd : ((l1 ++ mr :: l2).map idOf).Nodup) :
    setJob ((l1 ++ mr :: l2).map entryOf) (idOf mr) r =
      ((l1 ++ mr :: l2).map entryOf).set l1.length (idOf mr, r) := by
  induction l1 with
  | nil =>
    simp only [List.nil_append, List.map_cons, List.nodup_cons] at hnd
    have hnm : idOf mr ∉ List.map Prod.fst (List.map entryOf l2) := by
      rw [List.map_map]
      exact hnd.1
    have hif : (entryOf mr).1 = idOf mr := rfl
    simp only [List.nil_append, List.map_cons, setJob, hif, if_pos rfl, List.length_nil,
      List.set_cons_zero]
    rw [setJob_not_mem r hnm]
    simp
  | cons e l1 ih =>
    simp only [List.cons_append, List.map_cons, List.nodup_cons] at hnd
    have hne : (entryOf e).1 ≠ idOf mr := by
      simp only [entryOf]
      intro he
      refine hnd.1 (he ▸ ?_)
      simp
    simp only [List.cons_append, List.map_cons, setJob, hne, if_false, List.length_cons,
      List.set_cons_succ, List.append_eq]
    rw [ih hnd.2]

/-- Rendering the freshly built registry. -/
theorem rowsOf_map_entryOf (l : List (Nat × ConvRef)) :
    rowsOf (l.map entryOf) = some (l.map fun mr => rowString (idOf mr) mr.2 false) := by
  induction l with
  | nil => rfl
  | cons mr rest ih => simp [rowsOf, rowOfE, entryOf, ih]

/-- Rendering after an in-place entry update. -/
theorem rowsOf_set {jobs : List (String × JobRecord)} {rows : List String}
    (k : Nat) (e : String × JobRecord) (row : String)
    (hrows : rowsOf jobs = some rows) (hrow : rowOfE e = some row) :
    rowsOf (jobs.set k e) = some (rows.set k row) := by
  induction jobs generalizing k rows with
  | nil =>
    simp only [rowsOf, Option.some.injEq] at hrows
    subst hrows
    simp [rowsOf]
  | cons e0 rest ih =>
    cases h0 : rowOfE e0 with
    | none => simp [rowsOf, h0] at hrows
    | some r0 =>
      cases hrest : rowsOf rest with
      | none => simp [rowsOf, h0, hrest] at hrows
      | some rs =>
        simp only [rowsOf, h0, hrest, Option.some.injEq] at hrows
        subst hrows
        cases k with
        | zero => simp [rowsOf, hrow, hrest]
        | succ k =>
          simp only [List.set_cons_succ, rowsOf, h0, ih k hrest, List.set_cons_succ]

/-- Counterexample to claim C4 as stated: two `run` commands landing on the
same millisecond-of-second value (absolute times 5 and 1005 both yield id
"5") leave only ONE row for `show` to render, not N = 2: the registry
collapses colliding ids, so "show after N runs renders exactly N rows" fails
without a distinctness assumption (cf. C10). -/
theorem c4_collision_row_count_cex :
    (rowsOf (runMany [(5, refA), (1005, refB)] initialState).jobs).map List.length =
      some 1 ∧
    (rowsOf (runMany [(5, refA), (1005, refB)] initialState).jobs).map List.length ≠
      some 2 :=
  ⟨rfl, by decide⟩

/-- Claim C4, amended with the distinctness hypothesis the id collisions
force: after N `run` commands (from the empty initial state) whose generated
ids are pairwise distinct, the registry holds exactly their N entries and
`show` renders exactly N rows, each displaying `completed = false`; after a
subsequent successful `done <id>` for the run at any position, `show`
renders the same rows with exactly that position's row now displaying
`completed = true` and every other row unchanged (`List.set` replaces only
that row). -/
theorem c4_show_roundtrip (l : List (Nat × ConvRef)) (hnd : (l.map idOf).Nodup) :
    (runMany l initialState).jobs = l.map entryOf ∧
    rowsOf (runMany l initialState).jobs =
      some (l.map fun mr => rowString (idOf mr) mr.2 false) ∧
    (l.map fun mr => rowString (idOf mr) mr.2 false).length = l.length ∧
    (∀ l1 mr l2, l = l1 ++ mr :: l2 →
      ∃ st2 outs,
        completeJob (runMany l initialState) (idOf mr) true = Except.ok (st2, outs) ∧
        rowsOf st2.jobs =
          some ((l.map fun mr2 => rowString (idOf mr2) mr2.2 false).set l1.length
            (rowString (idOf mr) mr.2 true))) := by
  have hjobs : (runMany l initialState).jobs = l.map entryOf := by
    rw [runMany_jobs l initialState (fun mr _ => rfl) hnd]
    simp [initialState]
  refine ⟨hjobs, ?_, by simp, ?_⟩
  · rw [hjobs, rowsOf_map_entryOf]
  · intro l1 mr l2 hdec
    subst hdec
    have hlk : lookupJob (runMany (l1 ++ mr :: l2) initialState).jobs (idOf mr) =
        some ⟨false, some mr.2⟩ := by
      rw [hjobs]
      exact lookupJob_map_entryOf l1 l2 mr hnd
    simp only [completeJob, hlk]
    refine ⟨_, _, rfl, ?_⟩
    rw [hjobs, setJob_map_entryOf l1 l2 mr _ hnd]
    exact rowsOf_set l1.length _ _ (rowsOf_map_entryOf _) rfl

/-- Witness for the amended C4: two distinct runs (ids "1" and "2"), then
`done` for the first: two rows, the first flips to `true`. -/
theorem c4_show_roundtrip_witness :
    (([(1, refA), (2, refB)].map idOf).Nodup) ∧
    rowsOf (runMany [(1, refA), (2, refB)] initialState).jobs =
      some ([(1, refA), (2, refB)].map fun mr => rowString (idOf mr) mr.2 false) ∧
    ∃ st2 outs,
      completeJob (runMany [(1, refA), (2, refB)] initialState) (idOf (1, refA)) true =
        Except.ok (st2, outs) ∧
      rowsOf st2.jobs =
        some (([(1, refA), (2, refB)].map fun mr2 =>
          rowString (idOf mr2) mr2.2 false).set 0 (rowString (idOf (1, refA)) refA true)) :=
  ⟨by decide,
   (c4_show_roundtrip [(1, refA), (2, refB)] (by decide)).2.1,
   (c4_show_roundtrip [(1, refA), (2, refB)] (by decide)).2.2.2 [] (1, refA) [(2, refB)] rfl⟩
